import Mathlib

/-!
The leveled logger of `pkg/log` and the route registry of `pkg/engine` (daemgo/gopkg).

Namespace `Log` is a shallow embedding of `pkg/log/logger.go`.  A `Logger` is a record of the
Go struct's fields; every method is a function that returns the logger after the call together
with the ordered list of effects the call performed (calls into the zap core, `panic`,
`os.Exit`, closing the writer).  What the Go code takes from outside the repository is a field
of `Env` (`time.Now`, `fmt.Sprintf`, `os.OpenFile`, the answers of `Sync` and `Close` of a
writer, the zap encoders); `fmt.Sprint` is embedded from the loop of `doPrint` in Go's
`fmt/print.go`, and the zap handle from `zap.New` and `(*zap.Logger).check`.

Namespace `Eng` is a shallow embedding of `pkg/engine/enginee.go`: the engine is passed to and
returned from every method of a route group wrapper, which in Go holds a pointer to it.
-/

namespace Log

/-! ## Levels -/

/-- The type `zapcore.Level` (an `int8`). -/
abbrev Level := Int

/-- Constant `zapcore.DebugLevel`. -/
def DebugLevel : Level := -1
/-- Constant `zapcore.InfoLevel`. -/
def InfoLevel : Level := 0
/-- Constant `zapcore.WarnLevel`. -/
def WarnLevel : Level := 1
/-- Constant `zapcore.ErrorLevel`. -/
def ErrorLevel : Level := 2
/-- Constant `zapcore.DPanicLevel`; no call form and no level name of this package uses it. -/
def DPanicLevel : Level := 3
/-- Constant `zapcore.PanicLevel`. -/
def PanicLevel : Level := 4
/-- Constant `zapcore.FatalLevel`. -/
def FatalLevel : Level := 5

/-- The map `levelMap` of logger.go: the keys are `zapcore.XLevel.String()` for the six
levels listed there; any other name is absent. -/
def levelMap (name : String) : Option Level :=
  if name = "debug" then some DebugLevel
  else if name = "info" then some InfoLevel
  else if name = "warn" then some WarnLevel
  else if name = "error" then some ErrorLevel
  else if name = "panic" then some PanicLevel
  else if name = "fatal" then some FatalLevel
  else none

/-- The six severities that have call forms, in the order of the source file. -/
inductive Severity where
  | Debug | Info | Warn | Error | Panic | Fatal
  deriving DecidableEq, Repr

/-- The zap level a severity's call forms compare against and write with. -/
def Severity.level : Severity → Level
  | .Debug => DebugLevel
  | .Info => InfoLevel
  | .Warn => WarnLevel
  | .Error => ErrorLevel
  | .Panic => PanicLevel
  | .Fatal => FatalLevel

/-- Position of a severity in the order Debug, Info, Warn, Error, Panic, Fatal. -/
def Severity.rank : Severity → Nat
  | .Debug => 0
  | .Info => 1
  | .Warn => 2
  | .Error => 3
  | .Panic => 4
  | .Fatal => 5

/-- The canonical lower-case name of a severity (`zapcore.Level.String`). -/
def Severity.name : Severity → String
  | .Debug => "debug"
  | .Info => "info"
  | .Warn => "warn"
  | .Error => "error"
  | .Panic => "panic"
  | .Fatal => "fatal"

/-! ## Go integers -/

/-- Reduction of a mathematical integer to Go's 64-bit `int` (two's complement wrap-around). -/
def wrapInt (x : Int) : Int := (x + 2 ^ 63) % 2 ^ 64 - 2 ^ 63

/-- Go's `a + b` on `int`. -/
def addInt (a b : Int) : Int := wrapInt (a + b)

/-! ## Values and `fmt.Sprint` -/

/-- An argument of type `interface{}` as `fmt.Sprint` sees it: `isString` is the test
`arg != nil && reflect.TypeOf(arg).Kind() == reflect.String` of `doPrint`, and `text` is what
`printArg(arg, 'v')` writes, the default textual representation of the value. -/
structure Value where
  isString : Bool
  text : String
  deriving DecidableEq, Repr

/-- A Go string value. -/
def Value.ofString (s : String) : Value := ⟨true, s⟩

/-- A Go integer value, printed in decimal. -/
def Value.ofInt (n : Int) : Value := ⟨false, toString n⟩

/-- The loop of `(*pp).doPrint` in Go's `fmt/print.go`: `buf` is the buffer so far,
`prevString` and `argNum` are the loop variables of the same names. -/
def doPrint (buf : String) (prevString : Bool) (argNum : Nat) : List Value → String
  | [] => buf
  | arg :: rest =>
    let isString := arg.isString
    let buf := if argNum > 0 && !isString && !prevString then buf ++ " " else buf
    doPrint (buf ++ arg.text) isString (argNum + 1) rest

/-- Function `fmt.Sprint`. -/
def Sprint (args : List Value) : String := doPrint "" false 0 args

/-! ## Writers, encoders and the core -/

/-- The value held in `Logger.writer`.  `Stdout` and `Stderr` are the two `*os.File` values
`os.Stdout` and `os.Stderr`; `file fd` is any other `*os.File`; `syncer id closer` is a writer of
any other dynamic type, `closer` telling whether that type has a `Close() error` method. -/
inductive Writer where
  | Stdout
  | Stderr
  | file (fd : Nat)
  | syncer (id : Nat) (closer : Bool)
  deriving DecidableEq, Repr

/-- The type assertion `writer.(*os.File)`: whether it succeeds. -/
def Writer.isOsFile : Writer → Bool
  | .Stdout => true
  | .Stderr => true
  | .file _ => true
  | .syncer _ _ => false

/-- The type assertion `writer.(io.Closer)`: whether it succeeds (`*os.File` has `Close`). -/
def Writer.isCloser : Writer → Bool
  | .Stdout => true
  | .Stderr => true
  | .file _ => true
  | .syncer _ closer => closer

/-- A Go `error` value: `none` is `nil`. -/
abbrev GoError := Option String

/-- The time encoder put in the encoder configuration. -/
inductive TimeEncoder where
  | RFC3339
  | custom (layout : String)
  deriving DecidableEq, Repr

/-- Which zap constructor built the encoder. -/
inductive EncoderKind where
  | console
  | json
  deriving DecidableEq, Repr

/-- The `zapcore.EncoderConfig` literal of `NewLogger`, field by field. -/
structure EncoderConfig where
  MessageKey : String
  LevelKey : String
  TimeKey : String
  NameKey : String
  CallerKey : String
  StacktraceKey : String
  LineEnding : String
  EncodeLevel : String
  EncodeTime : TimeEncoder
  EncodeDuration : String
  EncodeCaller : String
  deriving DecidableEq, Repr

/-- A `zapcore.Encoder` as built by `NewConsoleEncoder` or `NewJSONEncoder`. -/
structure Encoder where
  kind : EncoderKind
  cfg : EncoderConfig
  deriving DecidableEq, Repr

/-- The result of `zapcore.NewCore(enc, ws, enab)`. -/
structure Core where
  enc : Encoder
  out : Writer
  enab : Level
  deriving DecidableEq, Repr

/-- A `zapcore.Field`: key, field type tag (`Type` in Go) and the payload slots
(`Integer` and `String` in Go). -/
structure Field where
  Key : String
  FieldType : Nat
  Integer : Int
  Str : String
  deriving DecidableEq, Repr

/-- A `zapcore.Entry` as `Logger.write` fills it.  `Caller` records the depth handed to
`runtime.Caller`, which fixes the frame `zapcore.NewEntryCaller` reports. -/
structure Entry where
  Level : Level
  Time : Nat
  Message : String
  LoggerName : String
  Caller : Int
  deriving DecidableEq, Repr

/-- What the code obtains from outside the repository. -/
structure Env where
  /-- The value of `time.Now()`. -/
  Now : Nat
  /-- Function `fmt.Sprintf`. -/
  Sprintf : String → List Value → String
  /-- The call `os.OpenFile(name, os.O_CREATE|os.O_WRONLY|os.O_APPEND, 0644)`. -/
  OpenFile : String → Except String Nat
  /-- The result of the writer's `Sync()`, which `zapcore.Core.Sync` returns. -/
  SyncOf : Writer → GoError
  /-- The result of the writer's `Close()`. -/
  CloseOf : Writer → GoError
  /-- The bytes `Encoder.EncodeEntry` produces. -/
  EncodeEntry : Encoder → Entry → List Field → List UInt8

/-! ## The logger -/

/-- The struct `Logger`. -/
structure Logger where
  writer : Writer
  core : Core
  level : Level
  skipFrames : Int
  context : String
  skipFramesOnce : Int
  deriving DecidableEq, Repr

/-- An effect of a call, as seen from the facade. -/
inductive Event where
  /-- The call `logger.core.Write(e, fields)`, with all the core does inside it: encoding the
  entry, writing the buffer to its sink and, for a level above Error, syncing the sink. -/
  | coreWrite (e : Entry) (fields : List Field)
  /-- The call `logger.core.Sync()`. -/
  | coreSync
  /-- The call `closer.Close()` on the writer. -/
  | close (w : Writer)
  /-- The statement `panic(v)`. -/
  | panic (v : String)
  /-- The call `os.Exit(code)`. -/
  | exit (code : Int)
  deriving DecidableEq, Repr

/-- The logger after a call and the effects of the call, oldest first. -/
structure Run where
  logger : Logger
  trace : List Event
  deriving DecidableEq, Repr

/-- Continue a run with one more effect. -/
def Run.andThen (r : Run) (ev : Event) : Run := ⟨r.logger, r.trace ++ [ev]⟩

/-- The records handed to the core during a run, in order. -/
def coreWrites : List Event → List (Entry × List Field)
  | [] => []
  | .coreWrite e fields :: rest => (e, fields) :: coreWrites rest
  | _ :: rest => coreWrites rest

/-- The bytes the core `c` passes to its sink during a run: `ioCore.Write` encodes the entry
with the core's encoder and writes the buffer to `out`. -/
def bytesWritten (env : Env) (c : Core) : List Event → List UInt8
  | [] => []
  | .coreWrite e fields :: rest => env.EncodeEntry c.enc e fields ++ bytesWritten env c rest
  | _ :: rest => bytesWritten env c rest

/-- Method `(*Logger).write`. -/
def Logger.write (env : Env) (logger : Logger) (level : Level) (message : String)
    (fields : List Field) : Run :=
  let e : Entry :=
    { Level := level
      Time := env.Now
      Message := message
      LoggerName := logger.context
      Caller := addInt logger.skipFrames logger.skipFramesOnce }
  ⟨{ logger with skipFramesOnce := 0 }, [Event.coreWrite e fields]⟩

/-- Method `(*Logger).Sync`: the returned error and the effects. -/
def Logger.Sync (env : Env) (logger : Logger) : GoError × List Event :=
  if logger.writer.isOsFile && logger.writer != Writer.Stdout && logger.writer != Writer.Stderr then
    (env.SyncOf logger.core.out, [Event.coreSync])
  else
    (none, [])

/-- Method `(*Logger).Close`: the returned error and the effects. -/
def Logger.Close (env : Env) (logger : Logger) : GoError × List Event :=
  if logger.writer.isCloser then
    (env.CloseOf logger.writer, [Event.close logger.writer])
  else
    (none, [])

/-- Method `(*Logger).SkipFramesOnce`. -/
def Logger.SkipFramesOnce (logger : Logger) (frames : Int) : Logger :=
  { logger with skipFramesOnce := addInt logger.skipFramesOnce frames }

/-- Method `(*Logger).SkipFrames`. -/
def Logger.SkipFrames (logger : Logger) (frames : Int) : Logger :=
  { logger with skipFrames := addInt logger.skipFrames frames }

/-! ## The eighteen call forms -/

/-- Method `(*Logger).Debug`. -/
def Logger.Debug (env : Env) (logger : Logger) (args : List Value) : Run :=
  if logger.level ≤ DebugLevel then
    let msg := Sprint args
    logger.write env DebugLevel msg []
  else
    ⟨logger, []⟩

/-- Method `(*Logger).Debugf`. -/
def Logger.Debugf (env : Env) (logger : Logger) (template : String) (args : List Value) : Run :=
  if logger.level ≤ DebugLevel then
    let msg := env.Sprintf template args
    logger.write env DebugLevel msg []
  else
    ⟨logger, []⟩

/-- Method `(*Logger).Debugw`. -/
def Logger.Debugw (env : Env) (logger : Logger) (message : String) (fields : List Field) : Run :=
  if logger.level ≤ DebugLevel then
    logger.write env DebugLevel message fields
  else
    ⟨logger, []⟩

/-- Method `(*Logger).Info`. -/
def Logger.Info (env : Env) (logger : Logger) (args : List Value) : Run :=
  if logger.level ≤ InfoLevel then
    let msg := Sprint args
    logger.write env InfoLevel msg []
  else
    ⟨logger, []⟩

/-- Method `(*Logger).Infof`. -/
def Logger.Infof (env : Env) (logger : Logger) (template : String) (args : List Value) : Run :=
  if logger.level ≤ InfoLevel then
    let msg := env.Sprintf template args
    logger.write env InfoLevel msg []
  else
    ⟨logger, []⟩

/-- Method `(*Logger).Infow`. -/
def Logger.Infow (env : Env) (logger : Logger) (message : String) (fields : List Field) : Run :=
  if logger.level ≤ InfoLevel then
    logger.write env InfoLevel message fields
  else
    ⟨logger, []⟩

/-- Method `(*Logger).Warn`. -/
def Logger.Warn (env : Env) (logger : Logger) (args : List Value) : Run :=
  if logger.level ≤ WarnLevel then
    let msg := Sprint args
    logger.write env WarnLevel msg []
  else
    ⟨logger, []⟩

/-- Method `(*Logger).Warnf`. -/
def Logger.Warnf (env : Env) (logger : Logger) (template : String) (args : List Value) : Run :=
  if logger.level ≤ WarnLevel then
    let msg := env.Sprintf template args
    logger.write env WarnLevel msg []
  else
    ⟨logger, []⟩

/-- Method `(*Logger).Warnw`. -/
def Logger.Warnw (env : Env) (logger : Logger) (message : String) (fields : List Field) : Run :=
  if logger.level ≤ WarnLevel then
    logger.write env WarnLevel message fields
  else
    ⟨logger, []⟩

/-- Method `(*Logger).Error`. -/
def Logger.Error (env : Env) (logger : Logger) (args : List Value) : Run :=
  if logger.level ≤ ErrorLevel then
    let msg := Sprint args
    logger.write env ErrorLevel msg []
  else
    ⟨logger, []⟩

/-- Method `(*Logger).Errorf`. -/
def Logger.Errorf (env : Env) (logger : Logger) (template : String) (args : List Value) : Run :=
  if logger.level ≤ ErrorLevel then
    let msg := env.Sprintf template args
    logger.write env ErrorLevel msg []
  else
    ⟨logger, []⟩

/-- Method `(*Logger).Errorw`. -/
def Logger.Errorw (env : Env) (logger : Logger) (message : String) (fields : List Field) : Run :=
  if logger.level ≤ ErrorLevel then
    logger.write env ErrorLevel message fields
  else
    ⟨logger, []⟩

/-- Method `(*Logger).Panic`. -/
def Logger.Panic (env : Env) (logger : Logger) (args : List Value) : Run :=
  if logger.level ≤ PanicLevel then
    let msg := Sprint args
    (logger.write env PanicLevel msg []).andThen (Event.panic msg)
  else
    ⟨logger, []⟩

/-- Method `(*Logger).Panicf`. -/
def Logger.Panicf (env : Env) (logger : Logger) (template : String) (args : List Value) : Run :=
  if logger.level ≤ PanicLevel then
    let msg := env.Sprintf template args
    (logger.write env PanicLevel msg []).andThen (Event.panic msg)
  else
    ⟨logger, []⟩

/-- Method `(*Logger).Panicw`. -/
def Logger.Panicw (env : Env) (logger : Logger) (message : String) (fields : List Field) : Run :=
  if logger.level ≤ PanicLevel then
    (logger.write env PanicLevel message fields).andThen (Event.panic message)
  else
    ⟨logger, []⟩

/-- Method `(*Logger).Fatal`. -/
def Logger.Fatal (env : Env) (logger : Logger) (args : List Value) : Run :=
  if logger.level ≤ FatalLevel then
    let msg := Sprint args
    (logger.write env FatalLevel msg []).andThen (Event.exit 1)
  else
    ⟨logger, []⟩

/-- Method `(*Logger).Fatalf`. -/
def Logger.Fatalf (env : Env) (logger : Logger) (template : String) (args : List Value) : Run :=
  if logger.level ≤ FatalLevel then
    let msg := env.Sprintf template args
    (logger.write env FatalLevel msg []).andThen (Event.exit 1)
  else
    ⟨logger, []⟩

/-- Method `(*Logger).Fatalw`. -/
def Logger.Fatalw (env : Env) (logger : Logger) (message : String) (fields : List Field) : Run :=
  if logger.level ≤ FatalLevel then
    (logger.write env FatalLevel message fields).andThen (Event.exit 1)
  else
    ⟨logger, []⟩

/-- The concatenation form of a severity: `Debug`, `Info`, `Warn`, `Error`, `Panic`, `Fatal`. -/
def Logger.concatForm (env : Env) (logger : Logger) : Severity → List Value → Run
  | .Debug => logger.Debug env
  | .Info => logger.Info env
  | .Warn => logger.Warn env
  | .Error => logger.Error env
  | .Panic => logger.Panic env
  | .Fatal => logger.Fatal env

/-- The template form of a severity: `Debugf`, `Infof`, `Warnf`, `Errorf`, `Panicf`, `Fatalf`. -/
def Logger.templateForm (env : Env) (logger : Logger) : Severity → String → List Value → Run
  | .Debug => logger.Debugf env
  | .Info => logger.Infof env
  | .Warn => logger.Warnf env
  | .Error => logger.Errorf env
  | .Panic => logger.Panicf env
  | .Fatal => logger.Fatalf env

/-- The keyed form of a severity: `Debugw`, `Infow`, `Warnw`, `Errorw`, `Panicw`, `Fatalw`. -/
def Logger.keyedForm (env : Env) (logger : Logger) : Severity → String → List Field → Run
  | .Debug => logger.Debugw env
  | .Info => logger.Infow env
  | .Warn => logger.Warnw env
  | .Error => logger.Errorw env
  | .Panic => logger.Panicw env
  | .Fatal => logger.Fatalw env

/-- One call of a call form with its arguments. -/
inductive Call where
  | concat (L : Severity) (args : List Value)
  | template (L : Severity) (tmpl : String) (args : List Value)
  | keyed (L : Severity) (message : String) (fields : List Field)
  deriving DecidableEq, Repr

/-- The severity of the call form a call goes to. -/
def Call.severity : Call → Severity
  | .concat L _ => L
  | .template L _ _ => L
  | .keyed L _ _ => L

/-- Perform a call on a logger. -/
def Logger.call (env : Env) (logger : Logger) : Call → Run
  | .concat L args => logger.concatForm env L args
  | .template L tmpl args => logger.templateForm env L tmpl args
  | .keyed L message fields => logger.keyedForm env L message fields

/-- The message a call's record carries, by the rule of its form: `fmt.Sprint(args...)`,
`fmt.Sprintf(template, args...)`, or the message argument itself. -/
def Call.message (env : Env) : Call → String
  | .concat _ args => Sprint args
  | .template _ tmpl args => env.Sprintf tmpl args
  | .keyed _ message _ => message

/-- The fields a call's record carries: none for the first two forms (`nil`), the supplied
ones for the keyed form. -/
def Call.fields : Call → List Field
  | .concat _ _ => []
  | .template _ _ _ => []
  | .keyed _ _ fields => fields

/-! ## Construction -/

/-- The struct `options` that `NewLogger` fills and reads.  Its declaration is in a file of the
package that is not among the sources; the fields are the ones `NewLogger` uses, with their zero
values `""`, `0` and `nil` (`none`). -/
structure options where
  logLevel : String
  outputFile : String
  writeSyncer : Option Writer
  context : String
  skipFrames : Int
  timeEncoder : Option TimeEncoder
  deriving DecidableEq, Repr

/-- An `Option` of the package, a value with the method `apply(o *options)`: here the update
that `apply` performs on the struct, which may be any update. -/
abbrev LoggerOption := options → options

/-- Modelled from the spec: the option `level`, which sets the severity threshold by name
(`WithLogLevel` in the tests; its body is not among the sources). -/
def WithLogLevel (level : String) : LoggerOption := fun o => { o with logLevel := level }

/-- Modelled from the spec: the option `destinationPath`, which sets the output to a named file
(its body is not among the sources). -/
def WithOutputFile (file : String) : LoggerOption := fun o => { o with outputFile := file }

/-- Modelled from the spec: the option `writeSync`, which injects an already-open sink
(`WithWriteSyncer` in the tests; its body is not among the sources). -/
def WithWriteSyncer (ws : Writer) : LoggerOption := fun o => { o with writeSyncer := some ws }

/-- Modelled from the spec: the option `context`, which sets the name label of every record
(`WithContext` in the tests; its body is not among the sources). -/
def WithContext (ctx : String) : LoggerOption := fun o => { o with context := ctx }

/-- Modelled from the spec: the option `callerSkip`, which sets the base skip-frame count
(its body is not among the sources). -/
def WithSkipFrames (n : Int) : LoggerOption := fun o => { o with skipFrames := n }

/-- Modelled from the spec: the option `timeFormat`, which overrides the timestamp layout
(`WithTimeEncoder` in the tests; its body is not among the sources). -/
def WithTimeEncoder (layout : String) : LoggerOption :=
  fun o => { o with timeEncoder := some (TimeEncoder.custom layout) }

/-- The first statements of `NewLogger`: the defaults `"warn"` and `"stderr"`, the options
applied in order, and the default of `skipFrames`. -/
def resolveOptions (opts : List LoggerOption) : options :=
  let o : options :=
    { logLevel := "warn"
      outputFile := "stderr"
      writeSyncer := none
      context := ""
      skipFrames := 0
      timeEncoder := none }
  let o := opts.foldl (fun o opt => opt o) o
  if o.skipFrames ≤ 0 then { o with skipFrames := 2 } else o

/-- The writer `NewLogger` settles on for resolved options: the injected one; else the standard
stream named by `outputFile`; else the file it opens, or the error of `os.OpenFile`. -/
def resolveWriter (env : Env) (o : options) : Except String Writer :=
  match o.writeSyncer with
  | some ws => .ok ws
  | none =>
    if o.outputFile = "stdout" then .ok Writer.Stdout
    else if o.outputFile = "stderr" then .ok Writer.Stderr
    else
      match env.OpenFile o.outputFile with
      | .error err => .error err
      | .ok fd => .ok (Writer.file fd)

/-- The two `zapcore.EncoderConfig` literals of `NewLogger`, which differ in `EncodeLevel`. -/
def encoderConfig (encodeLevel : String) (timeEncoder : TimeEncoder) : EncoderConfig :=
  { MessageKey := "message"
    LevelKey := "level"
    TimeKey := "time"
    NameKey := "context"
    CallerKey := "caller"
    StacktraceKey := "backtrace"
    LineEnding := "\n"
    EncodeLevel := encodeLevel
    EncodeTime := timeEncoder
    EncodeDuration := "StringDurationEncoder"
    EncodeCaller := "ShortCallerEncoder" }

/-- The last statements of `NewLogger`, from the choice of the time encoder on: the encoder
chosen by the writer, and the logger with its core. -/
def assemble (o : options) (level : Level) (writer : Writer) : Logger :=
  let timeEncoder : TimeEncoder :=
    match o.timeEncoder with
    | some te => te
    | none => TimeEncoder.RFC3339
  let enc : Encoder :=
    if writer = Writer.Stdout ∨ writer = Writer.Stderr then
      ⟨EncoderKind.console, encoderConfig "LowercaseColorLevelEncoder" timeEncoder⟩
    else
      ⟨EncoderKind.json, encoderConfig "LowercaseLevelEncoder" timeEncoder⟩
  { level := level
    context := o.context
    skipFrames := o.skipFrames
    skipFramesOnce := 0
    writer := writer
    core := ⟨enc, writer, level⟩ }

/-- Function `NewLogger`: the logger, or the error (its text). -/
def NewLogger (env : Env) (opts : List LoggerOption) : Except String Logger :=
  let o := resolveOptions opts
  match levelMap o.logLevel with
  | none => .error ("unknown log level " ++ o.logLevel)
  | some level =>
    match resolveWriter env o with
    | .error err => .error err
    | .ok writer => .ok (assemble o level writer)

/-- Whether `NewLogger` opens a file for these resolved options: no sink is injected and the
destination is neither `"stdout"` nor `"stderr"`. -/
def options.opensFile (o : options) : Bool :=
  o.writeSyncer.isNone && o.outputFile != "stdout" && o.outputFile != "stderr"

/-- An environment for concrete runs: time 0, `Sprintf` returning its template, every file
opening with descriptor 3, `Sync` and `Close` succeeding, the encoder writing the message. -/
def env0 : Env :=
  { Now := 0
    Sprintf := fun template _ => template
    OpenFile := fun _ => .ok 3
    SyncOf := fun _ => none
    CloseOf := fun _ => none
    EncodeEntry := fun _ e _ => e.Message.toUTF8.toList }

/-- An environment in which the file system refuses every open and every sync. -/
def envFail : Env :=
  { env0 with
    OpenFile := fun _ => .error "permission denied"
    SyncOf := fun _ => some "sync failed" }

/-! ## Vocabulary of the statements -/

/-- What follows the write in a call form of the given severity: `panic(msg)` in the Panic
forms, `os.Exit(1)` in the Fatal forms, nothing in the others. -/
def Severity.after (msg : String) : Severity → List Event
  | .Panic => [Event.panic msg]
  | .Fatal => [Event.exit 1]
  | _ => []

/-- The record `Logger.write` builds for a call on a logger. -/
def Call.entry (env : Env) (logger : Logger) (c : Call) : Entry :=
  { Level := c.severity.level
    Time := env.Now
    Message := c.message env
    LoggerName := logger.context
    Caller := addInt logger.skipFrames logger.skipFramesOnce }

/-- The arguments' default textual representations, concatenated in order with nothing
between them. -/
def plainConcat : List Value → String
  | [] => ""
  | a :: rest => a.text ++ plainConcat rest

/-- The arguments' default textual representations in order, with one space between two
adjacent arguments when neither is a string and nothing between them otherwise. -/
def spacedConcat : List Value → String
  | [] => ""
  | [a] => a.text
  | a :: b :: rest =>
    a.text ++ (if !a.isString && !b.isString then " " else "") ++ spacedConcat (b :: rest)

/-- A logger with threshold Error and context `"svc"` writing to an injected sink. -/
def errorLogger : Logger :=
  { writer := Writer.syncer 0 false
    core := ⟨⟨EncoderKind.json, encoderConfig "LowercaseLevelEncoder" TimeEncoder.RFC3339⟩,
      Writer.syncer 0 false, ErrorLevel⟩
    level := ErrorLevel
    skipFrames := 2
    context := "svc"
    skipFramesOnce := 0 }

/-- A logger with threshold Panic writing to an injected sink. -/
def panicLogger : Logger := { errorLogger with level := PanicLevel }

/-- A logger with threshold Fatal writing to an injected sink. -/
def fatalLogger : Logger := { errorLogger with level := FatalLevel }

/-- The six level names `levelMap` has as keys. -/
def levelNames : List String := ["debug", "info", "warn", "error", "panic", "fatal"]

/-- A closable sink that is handed to `NewLogger` already open. -/
def injectedCloser : Writer := Writer.syncer 7 true

/-- A logger with threshold Error, base depth 2 and a pending one-shot increment of 3. -/
def pendingLogger : Logger := { errorLogger with skipFramesOnce := 3 }

/-- The options struct after the defaults `"warn"` and `"stderr"` and the options applied in
order, before `NewLogger` looks at `skipFrames`. -/
def appliedOptions (opts : List LoggerOption) : options :=
  opts.foldl (fun o opt => opt o)
    { logLevel := "warn"
      outputFile := "stderr"
      writeSyncer := none
      context := ""
      skipFrames := 0
      timeEncoder := none }

/-! ## The zap handle -/

/-- Method `Enabled` of the core: `zapcore.NewCore` keeps its third argument as the level
enabler, and `(l Level).Enabled(lvl)` is `lvl >= l`. -/
def Core.Enabled (c : Core) (lvl : Level) : Bool := decide (c.enab ≤ lvl)

/-- The fields of a `zap.Logger` that `zap.New` and the options used by `ZapLogger` set. -/
structure Zap.Logger where
  core : Core
  errorOutput : Writer
  callerSkip : Int
  addCaller : Bool
  name : String
  deriving DecidableEq, Repr

/-- A `zap.Option`: the update its `apply` performs on the handle. -/
abbrev Zap.Option := Zap.Logger → Zap.Logger

/-- Option `zap.AddCallerSkip(skip)`: `log.callerSkip += skip`. -/
def Zap.AddCallerSkip (skip : Int) : Zap.Option :=
  fun log => { log with callerSkip := addInt log.callerSkip skip }

/-- Option `zap.ErrorOutput(w)`: `log.errorOutput = w`. -/
def Zap.ErrorOutput (w : Writer) : Zap.Option :=
  fun log => { log with errorOutput := w }

/-- Function `zap.New(core, options...)` for a non-nil core: the handle on `core` with error
output `os.Stderr`, caller skip 0, no caller annotation and no name, then the options in order. -/
def Zap.New (core : Core) (options : List Zap.Option) : Zap.Logger :=
  options.foldl (fun log opt => opt log)
    { core := core
      errorOutput := Writer.Stderr
      callerSkip := 0
      addCaller := false
      name := "" }

/-- A record a handle hands to its core.  The handle `ZapLogger` returns is built without
`zap.AddCaller`, so its entries carry no caller. -/
structure Zap.Record where
  Level : Level
  Time : Nat
  Message : String
  LoggerName : String
  fields : List Field
  deriving DecidableEq, Repr

/-- The records a level method of the handle (`(*zap.Logger).Debug` .. `Fatal`, at level `lvl`)
hands to its core.  `check` returns nil for a disabled level below DPanic; otherwise it goes
through `ioCore.Check`, which adds the core to the checked entry when the level is enabled, and
`CheckedEntry.Write` calls `Write` on each core added.  What `check` sets up to follow the write
at the Panic and Fatal levels is not part of the result. -/
def Zap.Logger.log (env : Env) (log : Zap.Logger) (lvl : Level) (msg : String)
    (fields : List Field) : List Zap.Record :=
  if lvl < DPanicLevel && !log.core.Enabled lvl then
    []
  else if log.core.Enabled lvl then
    [{ Level := lvl, Time := env.Now, Message := msg, LoggerName := log.name, fields := fields }]
  else
    []

/-- Method `(*Logger).ZapLogger`; `zapcore.AddSync` leaves the writer as it is. -/
def Logger.ZapLogger (logger : Logger) : Zap.Logger :=
  Zap.New logger.core [Zap.AddCallerSkip logger.skipFrames, Zap.ErrorOutput logger.writer]

/-- The logger `NewLogger` returns for no options. -/
def defaultLogger : Logger := assemble (resolveOptions []) WarnLevel Writer.Stderr

/-- Whether the core of a logger is the one `NewLogger` pairs with it: enabled from the
logger's threshold on, and writing to the logger's writer. -/
def Logger.coreMatches (logger : Logger) : Prop :=
  logger.core.enab = logger.level ∧ logger.core.out = logger.writer

instance (logger : Logger) : Decidable logger.coreMatches :=
  inferInstanceAs (Decidable (logger.core.enab = logger.level ∧ logger.core.out = logger.writer))

end Log

namespace Eng

/-! ## The route registry of `pkg/engine` -/

/-- The struct `ResourceType`; `Scope` is a `ResourceScope`, a string. -/
structure ResourceType where
  Scope : String
  Resource : String
  deriving DecidableEq, Repr

/-- A `gin.HandlerFunc`, by an identifier. -/
abbrev HandlerFunc := Nat

/-- What the package takes from outside the repository.  The state of the embedded
`*gin.Engine` is a number that only gin reads. -/
structure Lib where
  /-- Function `path.Join` on two elements. -/
  Join : String → String → String
  /-- The base path gin gives the group made by `(*gin.RouterGroup).Group(relativePath)` on a
  group with the given base path. -/
  groupBasePath : String → String → String
  /-- The state of a fresh `gin.New()`. -/
  ginNew : Nat
  /-- The call `(*gin.RouterGroup).Handle`-style registration behind `GET`, `POST`, `PATCH`,
  `PUT` and `DELETE`: from the gin state, the method, the base path of the group, the relative
  path and the handlers to the new gin state and the value gin panics with, if it panics. -/
  ginHandle : Nat → String → String → String → List HandlerFunc → Nat × Option String

/-- The struct `Engine`: the state of the embedded gin engine and the map `Routers`, a
non-nil map as `New` makes it (`none` is an absent key). -/
structure Engine where
  gin : Nat
  Routers : String → Option ResourceType

/-- The struct `RouterGroupWrapper`: `basePath` is `rg.RouterGroup.BasePath()`.  The field
`engine` is the engine the methods below receive and return. -/
structure RouterGroupWrapper where
  basePath : String
  deriving DecidableEq, Repr

/-- The result of a registering method: the engine after the call, and the panic value when
the call into gin panicked instead of returning. -/
structure Registered where
  engine : Engine
  panicked : Option String

/-- Constant `http.MethodGet`. -/
def MethodGet : String := "GET"
/-- Constant `http.MethodPost`. -/
def MethodPost : String := "POST"
/-- Constant `http.MethodPatch`. -/
def MethodPatch : String := "PATCH"
/-- Constant `http.MethodPut`. -/
def MethodPut : String := "PUT"
/-- Constant `http.MethodDelete`. -/
def MethodDelete : String := "DELETE"

/-- The assignment `m[key] = typ` on a Go map. -/
def mapSet (m : String → Option ResourceType) (key : String) (typ : ResourceType) :
    String → Option ResourceType :=
  fun k => if k = key then some typ else m k

/-- Function `New`; the base path of a fresh gin engine is `/`. -/
def New (lib : Lib) : Engine :=
  { gin := lib.ginNew, Routers := fun _ => none }

/-- Function `FormatRoute`: `fmt.Sprintf("%s %s", method, path)` on two strings. -/
def FormatRoute (method : String) (path : String) : String :=
  method ++ " " ++ path

/-- Method `(*Engine).Group`; the embedded gin engine is a group with base path `/`. -/
def Engine.Group (lib : Lib) (relativePath : String) : RouterGroupWrapper :=
  { basePath := lib.groupBasePath "/" relativePath }

/-- Method `RouterGroupWrapper.Group`. -/
def RouterGroupWrapper.Group (lib : Lib) (rg : RouterGroupWrapper) (relativePath : String) :
    RouterGroupWrapper :=
  { basePath := lib.groupBasePath rg.basePath relativePath }

/-- Method `RouterGroupWrapper.GET`. -/
def RouterGroupWrapper.GET (lib : Lib) (rg : RouterGroupWrapper) (e : Engine)
    (relativePath : String) (typ : ResourceType) (handlers : List HandlerFunc) : Registered :=
  let absolutePath := lib.Join rg.basePath relativePath
  let routers := mapSet e.Routers (FormatRoute MethodGet absolutePath) typ
  let r := lib.ginHandle e.gin MethodGet rg.basePath relativePath handlers
  ⟨{ gin := r.1, Routers := routers }, r.2⟩

/-- Method `RouterGroupWrapper.POST`. -/
def RouterGroupWrapper.POST (lib : Lib) (rg : RouterGroupWrapper) (e : Engine)
    (relativePath : String) (typ : ResourceType) (handlers : List HandlerFunc) : Registered :=
  let absolutePath := lib.Join rg.basePath relativePath
  let routers := mapSet e.Routers (FormatRoute MethodPost absolutePath) typ
  let r := lib.ginHandle e.gin MethodPost rg.basePath relativePath handlers
  ⟨{ gin := r.1, Routers := routers }, r.2⟩

/-- Method `RouterGroupWrapper.PATCH`. -/
def RouterGroupWrapper.PATCH (lib : Lib) (rg : RouterGroupWrapper) (e : Engine)
    (relativePath : String) (typ : ResourceType) (handlers : List HandlerFunc) : Registered :=
  let absolutePath := lib.Join rg.basePath relativePath
  let routers := mapSet e.Routers (FormatRoute MethodPatch absolutePath) typ
  let r := lib.ginHandle e.gin MethodPatch rg.basePath relativePath handlers
  ⟨{ gin := r.1, Routers := routers }, r.2⟩

/-- Method `RouterGroupWrapper.PUT`. -/
def RouterGroupWrapper.PUT (lib : Lib) (rg : RouterGroupWrapper) (e : Engine)
    (relativePath : String) (typ : ResourceType) (handlers : List HandlerFunc) : Registered :=
  let absolutePath := lib.Join rg.basePath relativePath
  let routers := mapSet e.Routers (FormatRoute MethodPut absolutePath) typ
  let r := lib.ginHandle e.gin MethodPut rg.basePath relativePath handlers
  ⟨{ gin := r.1, Routers := routers }, r.2⟩

/-- Method `RouterGroupWrapper.DELETE`. -/
def RouterGroupWrapper.DELETE (lib : Lib) (rg : RouterGroupWrapper) (e : Engine)
    (relativePath : String) (typ : ResourceType) (handlers : List HandlerFunc) : Registered :=
  let absolutePath := lib.Join rg.basePath relativePath
  let routers := mapSet e.Routers (FormatRoute MethodDelete absolutePath) typ
  let r := lib.ginHandle e.gin MethodDelete rg.basePath relativePath handlers
  ⟨{ gin := r.1, Routers := routers }, r.2⟩

/-- The five registering methods. -/
inductive Method where
  | GET | POST | PATCH | PUT | DELETE
  deriving DecidableEq, Repr

/-- The name of a method, as the constants of `net/http` give it. -/
def Method.name : Method → String
  | .GET => MethodGet
  | .POST => MethodPost
  | .PATCH => MethodPatch
  | .PUT => MethodPut
  | .DELETE => MethodDelete

/-- The registering method of a wrapper for each of the five methods. -/
def RouterGroupWrapper.register (lib : Lib) (rg : RouterGroupWrapper) (e : Engine) :
    Method → String → ResourceType → List HandlerFunc → Registered
  | .GET => rg.GET lib e
  | .POST => rg.POST lib e
  | .PATCH => rg.PATCH lib e
  | .PUT => rg.PUT lib e
  | .DELETE => rg.DELETE lib e

/-- A library for concrete runs: both joins put the two paths one after the other, which is
what `path.Join` and gin return for a clean base path and a relative path that starts with a
slash; gin counts the registrations and never panics. -/
def lib0 : Lib :=
  { Join := fun a b => if a = "/" then b else a ++ b
    groupBasePath := fun a b => if a = "/" then b else a ++ b
    ginNew := 0
    ginHandle := fun g _ _ _ _ => (g + 1, none) }

/-- A library whose gin panics on every registration. -/
def libPanic : Lib :=
  { lib0 with ginHandle := fun g _ _ _ _ => (g, some "handlers are already registered") }

/-- Resource type `userResourceType` of the test file. -/
def userResourceType : ResourceType := ⟨"management", "user"⟩
/-- Resource type `bookResourceType` of the test file. -/
def bookResourceType : ResourceType := ⟨"store", "book"⟩
/-- Resource type `reviewResourceType` of the test file. -/
def reviewResourceType : ResourceType := ⟨"store", "review"⟩

end Eng

namespace Log

/-! ## Lemmas on the call forms -/

theorem call_of_le (env : Env) (logger : Logger) (c : Call)
    (h : logger.level ≤ c.severity.level) :
    logger.call env c =
      ⟨{ logger with skipFramesOnce := 0 },
        Event.coreWrite (c.entry env logger) c.fields :: c.severity.after (c.message env)⟩ := by
  rcases c with ⟨L, args⟩ | ⟨L, tmpl, args⟩ | ⟨L, message, fields⟩ <;> cases L <;>
    simp only [Call.severity, Severity.level] at h <;>
    simp [Logger.call, Logger.concatForm, Logger.templateForm, Logger.keyedForm,
      Logger.Debug, Logger.Debugf, Logger.Debugw, Logger.Info, Logger.Infof, Logger.Infow,
      Logger.Warn, Logger.Warnf, Logger.Warnw, Logger.Error, Logger.Errorf, Logger.Errorw,
      Logger.Panic, Logger.Panicf, Logger.Panicw, Logger.Fatal, Logger.Fatalf, Logger.Fatalw,
      Logger.write, Run.andThen, Call.entry, Call.message, Call.fields, Call.severity,
      Severity.level, Severity.after, h]

theorem call_of_lt (env : Env) (logger : Logger) (c : Call)
    (h : c.severity.level < logger.level) :
    logger.call env c = ⟨logger, []⟩ := by
  rcases c with ⟨L, args⟩ | ⟨L, tmpl, args⟩ | ⟨L, message, fields⟩ <;> cases L <;>
    simp only [Call.severity, Severity.level] at h <;>
    simp [Logger.call, Logger.concatForm, Logger.templateForm, Logger.keyedForm,
      Logger.Debug, Logger.Debugf, Logger.Debugw, Logger.Info, Logger.Infof, Logger.Infow,
      Logger.Warn, Logger.Warnf, Logger.Warnw, Logger.Error, Logger.Errorf, Logger.Errorw,
      Logger.Panic, Logger.Panicf, Logger.Panicw, Logger.Fatal, Logger.Fatalf, Logger.Fatalw,
      not_le.mpr h]

theorem coreWrites_after (msg : String) (L : Severity) : coreWrites (L.after msg) = [] := by
  cases L <;> rfl

theorem coreWrites_call_of_le (env : Env) (logger : Logger) (c : Call)
    (h : logger.level ≤ c.severity.level) :
    coreWrites (logger.call env c).trace = [(c.entry env logger, c.fields)] := by
  rw [call_of_le env logger c h]
  simp [coreWrites, coreWrites_after]

theorem severity_level_lt_iff (L1 L2 : Severity) : L1.level < L2.level ↔ L1.rank < L2.rank := by
  cases L1 <;> cases L2 <;> decide

theorem bytesWritten_nil_of_coreWrites_nil (env : Env) (core : Core) (t : List Event)
    (h : coreWrites t = []) : bytesWritten env core t = [] := by
  induction t with
  | nil => rfl
  | cons ev rest ih =>
    cases ev <;> simp_all [coreWrites, bytesWritten]

theorem NewLogger_ok_iff (env : Env) (opts : List LoggerOption) (built : Logger) :
    NewLogger env opts = .ok built ↔
      ∃ level writer, levelMap (resolveOptions opts).logLevel = some level ∧
        resolveWriter env (resolveOptions opts) = .ok writer ∧
        built = assemble (resolveOptions opts) level writer := by
  cases hl : levelMap (resolveOptions opts).logLevel with
  | none => simp [NewLogger, hl]
  | some level =>
    cases hw : resolveWriter env (resolveOptions opts) with
    | error err => simp [NewLogger, hl, hw]
    | ok writer =>
      simp only [NewLogger, hl, hw, Except.ok.injEq, Option.some.injEq]
      constructor
      · intro hb
        exact ⟨level, writer, rfl, rfl, hb.symm⟩
      · rintro ⟨level2, writer2, rfl, rfl, rfl⟩
        rfl

/-! ## Threshold gating -/

/-- C1: a call of any of the three forms at a severity strictly below the logger's threshold
has no effect at all: nothing is handed to the core and no byte reaches the sink.  A call hands
a record to the core if and only if its severity is at or above the threshold, and the order of
the levels compared is the order Debug, Info, Warn, Error, Panic, Fatal. -/
theorem below_threshold_writes_nothing (env : Env) (logger : Logger) (c : Call) :
    (c.severity.level < logger.level →
      (logger.call env c).trace = [] ∧
      coreWrites (logger.call env c).trace = [] ∧
      bytesWritten env logger.core (logger.call env c).trace = []) ∧
    (coreWrites (logger.call env c).trace ≠ [] ↔ logger.level ≤ c.severity.level) ∧
    (∀ L1 L2 : Severity, L1.level < L2.level ↔ L1.rank < L2.rank) := by
  refine ⟨?_, ?_, severity_level_lt_iff⟩
  · intro h
    rw [call_of_lt env logger c h]
    exact ⟨rfl, rfl, rfl⟩
  · constructor
    · intro hne
      by_contra hlt
      rw [call_of_lt env logger c (not_le.mp hlt)] at hne
      exact hne rfl
    · intro hle
      rw [coreWrites_call_of_le env logger c hle]
      simp

/-- Witness of C1: a Warn call on a logger with threshold Error. -/
theorem below_threshold_writes_nothing_witness :
    (Call.concat Severity.Warn [Value.ofString "dropped"]).severity.level < errorLogger.level ∧
    (errorLogger.call env0 (Call.concat Severity.Warn [Value.ofString "dropped"])).trace = [] ∧
    bytesWritten env0 errorLogger.core
      (errorLogger.call env0 (Call.concat Severity.Warn [Value.ofString "dropped"])).trace = [] :=
  have h := (below_threshold_writes_nothing env0 errorLogger
    (Call.concat Severity.Warn [Value.ofString "dropped"])).1 (by decide)
  ⟨by decide, h.1, h.2.2⟩

/-- C2: a call at a severity at or above the threshold hands exactly one record to the core.
The record has the severity of the call form (the level its canonical name maps to), the
context label of the logger, and the message of the form: `fmt.Sprint(args...)`,
`fmt.Sprintf(template, args...)`, or the message argument itself.  The label of a logger built
by `NewLogger` is the one its options resolve to. -/
theorem passing_call_writes_one_record (env : Env) (logger : Logger) (ctx : String) (c : Call)
    (hctx : logger.context = ctx) (h : logger.level ≤ c.severity.level) :
    (∃ e fields, coreWrites (logger.call env c).trace = [(e, fields)] ∧
      e.Level = c.severity.level ∧
      levelMap c.severity.name = some e.Level ∧
      e.LoggerName = ctx ∧
      e.Message = c.message env) ∧
    (∀ L args, (Call.concat L args).message env = Sprint args) ∧
    (∀ L tmpl args, (Call.template L tmpl args).message env = env.Sprintf tmpl args) ∧
    (∀ L message fields, (Call.keyed L message fields).message env = message) ∧
    (∀ opts built, NewLogger env opts = .ok built →
      built.context = (resolveOptions opts).context) := by
  refine ⟨⟨c.entry env logger, c.fields, coreWrites_call_of_le env logger c h, rfl, ?_, hctx, rfl⟩,
    fun _ _ => rfl, fun _ _ _ => rfl, fun _ _ _ => rfl, ?_⟩
  · cases hs : c.severity <;> simp [Call.entry, hs, Severity.name, Severity.level, levelMap]
  · intro opts built hb
    obtain ⟨level, writer, -, -, rfl⟩ := (NewLogger_ok_iff env opts built).mp hb
    rfl

/-- Witness of C2: the three Error forms on a logger with threshold Error and context `svc`. -/
theorem passing_call_writes_one_record_witness :
    errorLogger.level ≤ (Call.template Severity.Error "hello I am %s"
      [Value.ofString "alex"]).severity.level ∧
    ∃ e fields,
      coreWrites (errorLogger.call env0 (Call.template Severity.Error "hello I am %s"
        [Value.ofString "alex"])).trace = [(e, fields)] ∧
      e.Level = ErrorLevel ∧ e.LoggerName = "svc" ∧ e.Message = "hello I am %s" :=
  have h := (passing_call_writes_one_record env0 errorLogger "svc"
    (Call.template Severity.Error "hello I am %s" [Value.ofString "alex"]) rfl (by decide)).1
  ⟨by decide, h.elim fun e he => he.elim fun fields hf =>
    ⟨e, fields, hf.1, hf.2.1, hf.2.2.2.1, hf.2.2.2.2⟩⟩

theorem levelMap_range (name : String) (level : Level) (h : levelMap name = some level) :
    DebugLevel ≤ level ∧ level ≤ FatalLevel := by
  unfold levelMap at h
  split_ifs at h <;> simp only [Option.some.injEq] at h <;> subst h <;> decide

theorem NewLogger_level_le_fatal (env : Env) (opts : List LoggerOption) (built : Logger)
    (h : NewLogger env opts = .ok built) : built.level ≤ FatalLevel := by
  obtain ⟨level, writer, hl, -, rfl⟩ := (NewLogger_ok_iff env opts built).mp h
  exact (levelMap_range _ level hl).2

/-! ## Panic and Fatal -/

/-- C3: on a logger whose threshold is at most Panic, each of `Panic`, `Panicf` and `Panicw`
first hands one Panic-level record to the core and then panics with that record's message
(`fmt.Sprint(args...)`, `fmt.Sprintf(template, args...)`, the message argument).  On a logger whose
threshold is above Panic (threshold Fatal) the three forms do nothing.  A Panic form panics if and
only if it writes. -/
theorem panic_forms_write_then_panic (env : Env) (logger : Logger) (args : List Value)
    (tmpl message : String) (fields : List Field) :
    (logger.level ≤ PanicLevel →
      (logger.Panic env args).trace =
        [Event.coreWrite ⟨PanicLevel, env.Now, Sprint args, logger.context,
            addInt logger.skipFrames logger.skipFramesOnce⟩ [],
          Event.panic (Sprint args)] ∧
      (logger.Panicf env tmpl args).trace =
        [Event.coreWrite ⟨PanicLevel, env.Now, env.Sprintf tmpl args, logger.context,
            addInt logger.skipFrames logger.skipFramesOnce⟩ [],
          Event.panic (env.Sprintf tmpl args)] ∧
      (logger.Panicw env message fields).trace =
        [Event.coreWrite ⟨PanicLevel, env.Now, message, logger.context,
            addInt logger.skipFrames logger.skipFramesOnce⟩ fields,
          Event.panic message]) ∧
    (PanicLevel < logger.level →
      (logger.Panic env args).trace = [] ∧
      (logger.Panicf env tmpl args).trace = [] ∧
      (logger.Panicw env message fields).trace = []) ∧
    (∀ c : Call, c.severity = Severity.Panic →
      ((∃ v, Event.panic v ∈ (logger.call env c).trace) ↔
        coreWrites (logger.call env c).trace ≠ [])) := by
  refine ⟨?_, ?_, ?_⟩
  · intro h
    simp [Logger.Panic, Logger.Panicf, Logger.Panicw, Logger.write, Run.andThen, h]
  · intro h
    simp [Logger.Panic, Logger.Panicf, Logger.Panicw, not_le.mpr h]
  · intro c hc
    by_cases h : logger.level ≤ c.severity.level
    · rw [call_of_le env logger c h, hc]
      simp [Severity.after, coreWrites]
    · rw [call_of_lt env logger c (not_le.mp h)]
      simp [coreWrites]

/-- Witness of C3: `Panic("hello")` on a logger with threshold Panic, and on one with
threshold Fatal. -/
theorem panic_forms_write_then_panic_witness :
    panicLogger.level ≤ PanicLevel ∧
    (panicLogger.Panic env0 [Value.ofString "hello"]).trace =
      [Event.coreWrite ⟨PanicLevel, 0, "hello", "svc", 2⟩ [], Event.panic "hello"] ∧
    PanicLevel < fatalLogger.level ∧
    (fatalLogger.Panic env0 [Value.ofString "hello"]).trace = [] :=
  ⟨by decide,
    ((panic_forms_write_then_panic env0 panicLogger [Value.ofString "hello"] "" "" []).1
      (by decide)).1,
    by decide,
    ((panic_forms_write_then_panic env0 fatalLogger [Value.ofString "hello"] "" "" []).2.1
      (by decide)).1⟩

/-- C4: on a logger whose threshold is at most Fatal, each of `Fatal`, `Fatalf` and `Fatalw`
hands one Fatal-level record to the core and then calls `os.Exit(1)`: the write comes first and
the exit is the last effect of the call.  Every logger `NewLogger` returns has such a
threshold. -/
theorem fatal_forms_write_then_exit (env : Env) (logger : Logger) (args : List Value)
    (tmpl message : String) (fields : List Field) :
    (logger.level ≤ FatalLevel →
      (logger.Fatal env args).trace =
        [Event.coreWrite ⟨FatalLevel, env.Now, Sprint args, logger.context,
            addInt logger.skipFrames logger.skipFramesOnce⟩ [],
          Event.exit 1] ∧
      (logger.Fatalf env tmpl args).trace =
        [Event.coreWrite ⟨FatalLevel, env.Now, env.Sprintf tmpl args, logger.context,
            addInt logger.skipFrames logger.skipFramesOnce⟩ [],
          Event.exit 1] ∧
      (logger.Fatalw env message fields).trace =
        [Event.coreWrite ⟨FatalLevel, env.Now, message, logger.context,
            addInt logger.skipFrames logger.skipFramesOnce⟩ fields,
          Event.exit 1]) ∧
    (∀ opts built, NewLogger env opts = .ok built → built.level ≤ FatalLevel) := by
  refine ⟨?_, NewLogger_level_le_fatal env⟩
  intro h
  simp [Logger.Fatal, Logger.Fatalf, Logger.Fatalw, Logger.write, Run.andThen, h]

/-- Witness of C4: `Fatal("hello")` on a logger with threshold Fatal. -/
theorem fatal_forms_write_then_exit_witness :
    fatalLogger.level ≤ FatalLevel ∧
    (fatalLogger.Fatal env0 [Value.ofString "hello"]).trace =
      [Event.coreWrite ⟨FatalLevel, 0, "hello", "svc", 2⟩ [], Event.exit 1] :=
  ⟨by decide,
    ((fatal_forms_write_then_exit env0 fatalLogger [Value.ofString "hello"] "" "" []).1
      (by decide)).1⟩

theorem levelMap_eq_none_iff (name : String) : levelMap name = none ↔ name ∉ levelNames := by
  unfold levelMap levelNames
  split_ifs <;> simp_all

theorem resolveWriter_error_iff (env : Env) (o : options) :
    (∃ err, resolveWriter env o = .error err) ↔
      (o.opensFile = true ∧ ∃ err, env.OpenFile o.outputFile = .error err) := by
  unfold resolveWriter options.opensFile
  cases hws : o.writeSyncer with
  | some ws => simp
  | none =>
    by_cases h1 : o.outputFile = "stdout"
    · simp [h1]
    · by_cases h2 : o.outputFile = "stderr"
      · simp [h2]
      · cases hop : env.OpenFile o.outputFile with
        | error err => simp [h1, h2]
        | ok fd => simp [h1, h2]

theorem resolveWriter_opensFile (env : Env) (o : options) (writer : Writer)
    (hopen : o.opensFile = true) (h : resolveWriter env o = .ok writer) :
    ∃ fd, env.OpenFile o.outputFile = .ok fd ∧ writer = Writer.file fd := by
  unfold options.opensFile at hopen
  simp only [Bool.and_eq_true, Option.isNone_iff_eq_none, bne_iff_ne, ne_eq] at hopen
  obtain ⟨⟨hws, h1⟩, h2⟩ := hopen
  unfold resolveWriter at h
  rw [hws] at h
  simp only [h1, h2, if_false] at h
  cases hop : env.OpenFile o.outputFile with
  | error err => rw [hop] at h; cases h
  | ok fd =>
    rw [hop] at h
    simp only [Except.ok.injEq] at h
    exact ⟨fd, rfl, h.symm⟩

/-! ## Construction errors -/

/-- C5: `NewLogger` returns an error, and no logger, if and only if the resolved level name is
not one of debug, info, warn, error, panic, fatal, or the file it opens for the destination (no
sink injected, destination other than the two standard streams) fails to open; in every other
case it returns a logger and no error. -/
theorem NewLogger_error_iff (env : Env) (opts : List LoggerOption) :
    ((∃ err, NewLogger env opts = .error err) ↔
      ((resolveOptions opts).logLevel ∉ levelNames ∨
        ((resolveOptions opts).opensFile = true ∧
          ∃ err, env.OpenFile (resolveOptions opts).outputFile = .error err))) ∧
    ((∃ logger, NewLogger env opts = .ok logger) ↔
      ¬ ((resolveOptions opts).logLevel ∉ levelNames ∨
        ((resolveOptions opts).opensFile = true ∧
          ∃ err, env.OpenFile (resolveOptions opts).outputFile = .error err))) := by
  rw [← levelMap_eq_none_iff, ← resolveWriter_error_iff]
  cases hl : levelMap (resolveOptions opts).logLevel with
  | none => simp [NewLogger, hl]
  | some level =>
    cases hw : resolveWriter env (resolveOptions opts) with
    | error err => simp [NewLogger, hl, hw]
    | ok writer => simp [NewLogger, hl, hw]

/-! ## Close and Sync -/

/-- Counterexample to C6: a logger built on an injected closable sink, which it did not open
from a path, closes that sink in `Close`; so closing does not imply that the logger owns
the sink. -/
theorem Close_closes_injected_sink :
    (resolveOptions [WithWriteSyncer injectedCloser]).opensFile = false ∧
    ∃ logger, NewLogger env0 [WithWriteSyncer injectedCloser] = .ok logger ∧
      (logger.Close env0).2 = [Event.close injectedCloser] ∧
      ¬ (Event.close logger.writer ∈ (logger.Close env0).2 ↔
        (logger.writer.isCloser = true ∧
          (resolveOptions [WithWriteSyncer injectedCloser]).opensFile = true)) :=
  ⟨by decide, assemble (resolveOptions [WithWriteSyncer injectedCloser]) WarnLevel injectedCloser,
    rfl, by decide, by decide⟩

/-- C6, amended: for a logger whose writer is not one of the two standard streams, `Close`
closes the writer and returns the result of that close exactly when the writer has a `Close`
method, which every file has, and otherwise does nothing and returns nil.  A logger that
`NewLogger` built by opening a file has that file as its writer, so `Close` closes it. -/
theorem Close_closes_closable_writer (env : Env) (logger : Logger)
    (hout : logger.writer ≠ Writer.Stdout) (herr : logger.writer ≠ Writer.Stderr) :
    (logger.writer.isCloser = true →
      logger.Close env = (env.CloseOf logger.writer, [Event.close logger.writer])) ∧
    (logger.writer.isCloser = false → logger.Close env = (none, [])) ∧
    (∀ fd, logger.writer = Writer.file fd →
      logger.Close env = (env.CloseOf (Writer.file fd), [Event.close (Writer.file fd)])) ∧
    (∀ opts built, NewLogger env opts = .ok built → (resolveOptions opts).opensFile = true →
      ∃ fd, env.OpenFile (resolveOptions opts).outputFile = .ok fd ∧
        built.writer = Writer.file fd ∧
        built.Close env = (env.CloseOf (Writer.file fd), [Event.close (Writer.file fd)])) := by
  have _hstd := And.intro hout herr
  refine ⟨?_, ?_, ?_, ?_⟩
  · intro h
    simp [Logger.Close, h]
  · intro h
    simp [Logger.Close, h]
  · intro fd h
    simp [Logger.Close, h, Writer.isCloser]
  · intro opts built hb hopen
    obtain ⟨level, writer, -, hw, rfl⟩ := (NewLogger_ok_iff env opts built).mp hb
    obtain ⟨fd, hfd, rfl⟩ := resolveWriter_opensFile env _ writer hopen hw
    exact ⟨fd, hfd, rfl, by simp [Logger.Close, assemble, Writer.isCloser]⟩

/-- Witness of amended C6: a logger whose writer is file 3. -/
theorem Close_closes_closable_writer_witness :
    ({ errorLogger with writer := Writer.file 3 } : Logger).writer ≠ Writer.Stdout ∧
    ({ errorLogger with writer := Writer.file 3 } : Logger).writer ≠ Writer.Stderr ∧
    ({ errorLogger with writer := Writer.file 3 } : Logger).Close env0 =
      (none, [Event.close (Writer.file 3)]) :=
  ⟨by decide, by decide,
    (Close_closes_closable_writer env0 { errorLogger with writer := Writer.file 3 }
      (by decide) (by decide)).2.2.1 3 rfl⟩

/-- `Close` on the logger `NewLogger` builds from no options, whose writer is `os.Stderr`:
the call closes the standard error stream. -/
theorem Close_on_default_logger :
    ∃ logger, NewLogger env0 [] = .ok logger ∧ logger.writer = Writer.Stderr ∧
      (logger.Close env0).2 = [Event.close Writer.Stderr] :=
  ⟨assemble (resolveOptions []) WarnLevel Writer.Stderr, rfl, by decide, by decide⟩

/-- C7: on a logger whose writer is `os.Stdout` or `os.Stderr`, `Sync` returns nil and does
not call the core; on a logger whose writer is another file it calls the core's `Sync` once and
returns its result.  The core is called only when the writer is an `*os.File` other than the
two standard streams, and a logger that `NewLogger` built by opening a file is in that case. -/
theorem Sync_delegates_only_for_files (env : Env) (logger : Logger) :
    ((logger.writer = Writer.Stdout ∨ logger.writer = Writer.Stderr) →
      logger.Sync env = (none, [])) ∧
    (∀ fd, logger.writer = Writer.file fd →
      logger.Sync env = (env.SyncOf logger.core.out, [Event.coreSync])) ∧
    (Event.coreSync ∈ (logger.Sync env).2 ↔
      (logger.writer.isOsFile = true ∧ logger.writer ≠ Writer.Stdout ∧
        logger.writer ≠ Writer.Stderr)) ∧
    (∀ opts built, NewLogger env opts = .ok built → (resolveOptions opts).opensFile = true →
      ∃ fd, env.OpenFile (resolveOptions opts).outputFile = .ok fd ∧
        built.writer = Writer.file fd ∧ built.core.out = Writer.file fd ∧
        built.Sync env = (env.SyncOf (Writer.file fd), [Event.coreSync])) := by
  refine ⟨?_, ?_, ?_, ?_⟩
  · rintro (h | h) <;> simp [Logger.Sync, h]
  · intro fd h
    simp [Logger.Sync, h, Writer.isOsFile]
  · by_cases h : (logger.writer.isOsFile && logger.writer != Writer.Stdout &&
        logger.writer != Writer.Stderr) = true
    · have h2 := h
      simp only [Bool.and_eq_true, bne_iff_ne, ne_eq] at h2
      simp [Logger.Sync, h, h2]
    · have h2 := h
      simp only [Bool.and_eq_true, bne_iff_ne, ne_eq] at h2
      simp only [Logger.Sync, h]
      simp
      tauto
  · intro opts built hb hopen
    obtain ⟨level, writer, -, hw, rfl⟩ := (NewLogger_ok_iff env opts built).mp hb
    obtain ⟨fd, hfd, rfl⟩ := resolveWriter_opensFile env _ writer hopen hw
    exact ⟨fd, hfd, rfl, rfl, by simp [Logger.Sync, assemble, Writer.isOsFile]⟩

/-- Witness of C7: the default logger on standard error, and a logger on file 3 whose sync
fails. -/
theorem Sync_delegates_only_for_files_witness :
    (({ errorLogger with writer := Writer.Stderr } : Logger).writer = Writer.Stdout ∨
      ({ errorLogger with writer := Writer.Stderr } : Logger).writer = Writer.Stderr) ∧
    ({ errorLogger with writer := Writer.Stderr } : Logger).Sync envFail = (none, []) ∧
    ({ errorLogger with writer := Writer.file 3 } : Logger).Sync envFail =
      (some "sync failed", [Event.coreSync]) :=
  ⟨Or.inr rfl,
    (Sync_delegates_only_for_files envFail { errorLogger with writer := Writer.Stderr }).1
      (Or.inr rfl),
    (Sync_delegates_only_for_files envFail { errorLogger with writer := Writer.file 3 }).2.1
      3 rfl⟩

/-- Sample runs of `NewLogger`: an unknown level name, a file that cannot be opened, and the
same file with a sink injected, in which case no file is opened. -/
theorem NewLogger_samples :
    NewLogger env0 [WithLogLevel "dpanic"] = .error "unknown log level dpanic" ∧
    NewLogger envFail [WithOutputFile "/var/log/app.log"] = .error "permission denied" ∧
    NewLogger envFail [WithOutputFile "/var/log/app.log", WithWriteSyncer injectedCloser] =
      .ok (assemble (resolveOptions [WithOutputFile "/var/log/app.log",
        WithWriteSyncer injectedCloser]) WarnLevel injectedCloser) :=
  ⟨rfl, rfl, rfl⟩

/-! ## Messages and fields -/

theorem doPrint_succ (args : List Value) :
    ∀ (buf : String) (a : Value) (n : Nat),
      doPrint (buf ++ a.text) a.isString (n + 1) args = buf ++ spacedConcat (a :: args) := by
  induction args with
  | nil =>
    intro buf a n
    simp [doPrint, spacedConcat]
  | cons b rest ih =>
    intro buf a n
    rw [doPrint]
    cases ha : a.isString <;> cases hb : b.isString
    · have h := ih (buf ++ a.text ++ " ") b (n + 1)
      rw [hb] at h
      simp only [String.append_assoc] at h
      simp [spacedConcat, ha, hb, h, String.append_assoc]
    · have h := ih (buf ++ a.text) b (n + 1)
      rw [hb] at h
      simp only [String.append_assoc] at h
      simp [spacedConcat, ha, hb, h, String.append_assoc]
    · have h := ih (buf ++ a.text) b (n + 1)
      rw [hb] at h
      simp only [String.append_assoc] at h
      simp [spacedConcat, ha, hb, h, String.append_assoc]
    · have h := ih (buf ++ a.text) b (n + 1)
      rw [hb] at h
      simp only [String.append_assoc] at h
      simp [spacedConcat, ha, hb, h, String.append_assoc]

theorem Sprint_eq_spacedConcat (args : List Value) : Sprint args = spacedConcat args := by
  cases args with
  | nil => rfl
  | cons a rest =>
    have h := doPrint_succ rest "" a 0
    simp only [String.empty_append] at h
    simp only [Sprint, doPrint]
    simpa using h

theorem spacedConcat_eq_plainConcat (args : List Value)
    (h : List.Chain' (fun a b => a.isString = true ∨ b.isString = true) args) :
    spacedConcat args = plainConcat args := by
  induction args with
  | nil => rfl
  | cons a rest ih =>
    cases rest with
    | nil => simp [spacedConcat, plainConcat]
    | cons b rest2 =>
      rw [List.chain'_cons] at h
      have h2 := ih h.2
      have hsep : (!a.isString && !b.isString) = false := by
        rcases h.1 with h1 | h1 <;> simp [h1]
      rw [spacedConcat, h2, hsep]
      simp [plainConcat]

theorem wrapInt_of_range (x : Int) (hlo : -2 ^ 63 ≤ x) (hhi : x < 2 ^ 63) : wrapInt x = x := by
  unfold wrapInt
  rw [Int.emod_eq_of_lt (by omega) (by omega)]
  omega

/-- Counterexample to C8: `Error(1, 2)` on a logger with threshold Error writes the message
`1 2`, with a space between the two integers, not the plain concatenation `12`. -/
theorem concat_form_spaces_integers :
    coreWrites (errorLogger.Error env0 [Value.ofInt 1, Value.ofInt 2]).trace =
      [(⟨ErrorLevel, 0, "1 2", "svc", 2⟩, [])] ∧
    plainConcat [Value.ofInt 1, Value.ofInt 2] = "12" ∧
    "1 2" ≠ plainConcat [Value.ofInt 1, Value.ofInt 2] :=
  ⟨by decide, by decide, by decide⟩

/-- C8, amended: the message of a concatenation-form call that passes the threshold is
`fmt.Sprint(args...)`: the arguments' default textual representations in order, with one space
between two adjacent arguments when neither is a string and nothing between them when at least
one is a string.  When no two adjacent arguments are both non-strings the message is the plain
concatenation. -/
theorem concat_form_message (env : Env) (logger : Logger) (L : Severity) (args : List Value)
    (h : logger.level ≤ L.level) :
    (∃ e, coreWrites (logger.concatForm env L args).trace = [(e, [])] ∧
      e.Message = spacedConcat args) ∧
    (List.Chain' (fun a b => a.isString = true ∨ b.isString = true) args →
      ∃ e, coreWrites (logger.concatForm env L args).trace = [(e, [])] ∧
        e.Message = plainConcat args) := by
  have hw := coreWrites_call_of_le env logger (Call.concat L args) h
  have hm : ((Call.concat L args).entry env logger).Message = spacedConcat args :=
    Sprint_eq_spacedConcat args
  refine ⟨⟨_, hw, hm⟩, fun hc => ⟨_, hw, ?_⟩⟩
  rw [hm, spacedConcat_eq_plainConcat args hc]

/-- Witness of amended C8: `Error("id=", 7, 8, "!")` writes `id=7 8!`, and `Error("n=", 7, "!")`,
in which no two adjacent arguments are both non-strings, writes the plain concatenation. -/
theorem concat_form_message_witness :
    errorLogger.level ≤ Severity.Error.level ∧
    spacedConcat [Value.ofString "id=", Value.ofInt 7, Value.ofInt 8, Value.ofString "!"] =
      "id=7 8!" ∧
    (∃ e, coreWrites (errorLogger.concatForm env0 Severity.Error
        [Value.ofString "id=", Value.ofInt 7, Value.ofInt 8, Value.ofString "!"]).trace =
          [(e, [])] ∧
      e.Message = spacedConcat
        [Value.ofString "id=", Value.ofInt 7, Value.ofInt 8, Value.ofString "!"]) ∧
    List.Chain' (fun a b => a.isString = true ∨ b.isString = true)
      [Value.ofString "n=", Value.ofInt 7, Value.ofString "!"] ∧
    plainConcat [Value.ofString "n=", Value.ofInt 7, Value.ofString "!"] = "n=7!" ∧
    (∃ e, coreWrites (errorLogger.concatForm env0 Severity.Error
        [Value.ofString "n=", Value.ofInt 7, Value.ofString "!"]).trace = [(e, [])] ∧
      e.Message = plainConcat [Value.ofString "n=", Value.ofInt 7, Value.ofString "!"]) :=
  ⟨by decide, by decide,
    (concat_form_message env0 errorLogger Severity.Error
      [Value.ofString "id=", Value.ofInt 7, Value.ofInt 8, Value.ofString "!"] (by decide)).1,
    by simp [Value.ofString], by decide,
    (concat_form_message env0 errorLogger Severity.Error
      [Value.ofString "n=", Value.ofInt 7, Value.ofString "!"] (by decide)).2
      (by simp [Value.ofString])⟩

/-- C9: a keyed-form call that passes the threshold hands the core one record whose message
is the message argument, together with the list of fields it was given: the same fields in the
same order, repeated keys included. -/
theorem keyed_form_passes_fields (env : Env) (logger : Logger) (L : Severity)
    (message : String) (fields : List Field) (h : logger.level ≤ L.level) :
    ∃ e, coreWrites (logger.keyedForm env L message fields).trace = [(e, fields)] ∧
      e.Message = message ∧ e.Level = L.level :=
  ⟨_, coreWrites_call_of_le env logger (Call.keyed L message fields) h, rfl, rfl⟩

/-- Witness of C9: `Errorw` with the key `name` given twice. -/
theorem keyed_form_passes_fields_witness :
    errorLogger.level ≤ Severity.Error.level ∧
    ∃ e, coreWrites (errorLogger.keyedForm env0 Severity.Error "hello"
        [⟨"name", 15, 0, "alex"⟩, ⟨"age", 11, 3, ""⟩, ⟨"name", 15, 0, "bob"⟩]).trace =
          [(e, [⟨"name", 15, 0, "alex"⟩, ⟨"age", 11, 3, ""⟩, ⟨"name", 15, 0, "bob"⟩])] ∧
      e.Message = "hello" ∧ e.Level = Severity.Error.level :=
  ⟨by decide,
    keyed_form_passes_fields env0 errorLogger Severity.Error "hello"
      [⟨"name", 15, 0, "alex"⟩, ⟨"age", 11, 3, ""⟩, ⟨"name", 15, 0, "bob"⟩] (by decide)⟩

/-! ## Caller depth -/

/-- C10: an emission that passes the threshold hands the core a record whose caller depth is
the Go sum `skipFrames + skipFramesOnce`.  After it the one-shot increment is zero, whatever it
was, and `skipFrames` is unchanged, so the next emission is resolved at `skipFrames + 0`.
An increment added through `SkipFramesOnce` just before the emission is part of the depth.
The Go sum is the mathematical sum whenever that fits in 64 bits. -/
theorem emission_consumes_skipFramesOnce (env : Env) (logger : Logger) (c : Call)
    (h : logger.level ≤ c.severity.level) :
    (∃ e fields, coreWrites (logger.call env c).trace = [(e, fields)] ∧
      e.Caller = addInt logger.skipFrames logger.skipFramesOnce) ∧
    (logger.call env c).logger.skipFramesOnce = 0 ∧
    (logger.call env c).logger.skipFrames = logger.skipFrames ∧
    (∀ c2 : Call, logger.level ≤ c2.severity.level →
      ∃ e fields, coreWrites ((logger.call env c).logger.call env c2).trace = [(e, fields)] ∧
        e.Caller = addInt logger.skipFrames 0) ∧
    (∀ n : Int, ∃ e fields,
      coreWrites ((logger.SkipFramesOnce n).call env c).trace = [(e, fields)] ∧
        e.Caller = addInt logger.skipFrames (addInt logger.skipFramesOnce n) ∧
        ((logger.SkipFramesOnce n).call env c).logger.skipFramesOnce = 0) ∧
    (∀ a b : Int, -2 ^ 63 ≤ a + b → a + b < 2 ^ 63 → addInt a b = a + b) := by
  refine ⟨⟨_, _, coreWrites_call_of_le env logger c h, rfl⟩, ?_, ?_, ?_, ?_, ?_⟩
  · rw [call_of_le env logger c h]
  · rw [call_of_le env logger c h]
  · intro c2 h2
    rw [call_of_le env logger c h]
    exact ⟨_, _, coreWrites_call_of_le env _ c2 h2, rfl⟩
  · intro n
    have hn : (logger.SkipFramesOnce n).level ≤ c.severity.level := h
    refine ⟨_, _, coreWrites_call_of_le env _ c hn, rfl, ?_⟩
    rw [call_of_le env _ c hn]
  · intro a b hlo hhi
    exact wrapInt_of_range (a + b) hlo hhi

/-- Witness of C10: on a logger with base depth 2 and a pending increment of 3, an Error call
is resolved at depth 5, leaves a pending increment of 0, and the next call is resolved at
depth 2. -/
theorem emission_consumes_skipFramesOnce_witness :
    pendingLogger.level ≤ (Call.keyed Severity.Error "first" []).severity.level ∧
    (∃ e fields,
      coreWrites (pendingLogger.call env0 (Call.keyed Severity.Error "first" [])).trace =
        [(e, fields)] ∧ e.Caller = 5) ∧
    (pendingLogger.call env0 (Call.keyed Severity.Error "first" [])).logger.skipFramesOnce = 0 ∧
    (∃ e fields,
      coreWrites ((pendingLogger.call env0 (Call.keyed Severity.Error "first" [])).logger.call env0
        (Call.keyed Severity.Fatal "second" [])).trace = [(e, fields)] ∧ e.Caller = 2) :=
  have h := emission_consumes_skipFramesOnce env0 pendingLogger
    (Call.keyed Severity.Error "first" []) (by decide)
  ⟨by decide, h.1, h.2.1, h.2.2.2.1 (Call.keyed Severity.Fatal "second" []) (by decide)⟩

/-! ## Encoder choice and defaults -/

theorem assemble_kind_console_iff (o : options) (level : Level) (writer : Writer) :
    (assemble o level writer).core.enc.kind = EncoderKind.console ↔
      (writer = Writer.Stdout ∨ writer = Writer.Stderr) := by
  unfold assemble
  by_cases h : writer = Writer.Stdout ∨ writer = Writer.Stderr
  · simp [h]
  · simp [h]

theorem kind_json_iff_not_console (k : EncoderKind) :
    k = EncoderKind.json ↔ ¬ k = EncoderKind.console := by
  cases k <;> simp

theorem call_keeps_configuration (env : Env) (logger : Logger) (c : Call) :
    (logger.call env c).logger.core = logger.core ∧
    (logger.call env c).logger.writer = logger.writer ∧
    (logger.call env c).logger.level = logger.level ∧
    (logger.call env c).logger.context = logger.context ∧
    (logger.call env c).logger.skipFrames = logger.skipFrames := by
  by_cases h : logger.level ≤ c.severity.level
  · rw [call_of_le env logger c h]
    exact ⟨rfl, rfl, rfl, rfl, rfl⟩
  · rw [call_of_lt env logger c (not_le.mp h)]
    exact ⟨rfl, rfl, rfl, rfl, rfl⟩

/-- C11: the encoder of a logger `NewLogger` returns is decided by the resolved writer alone.
It is the console encoder if and only if the writer is `os.Stdout` or `os.Stderr` and the JSON
encoder for every other writer, a file opened from a path or an injected sink alike.  Two
loggers with the same writer have the same kind of encoder whatever their other options, and
no call form changes the core afterwards. -/
theorem NewLogger_encoder_by_writer (env : Env) (opts : List LoggerOption) (built : Logger)
    (h : NewLogger env opts = .ok built) :
    resolveWriter env (resolveOptions opts) = .ok built.writer ∧
    built.core.out = built.writer ∧
    (built.core.enc.kind = EncoderKind.console ↔
      (built.writer = Writer.Stdout ∨ built.writer = Writer.Stderr)) ∧
    (built.core.enc.kind = EncoderKind.json ↔
      ¬ (built.writer = Writer.Stdout ∨ built.writer = Writer.Stderr)) ∧
    (∀ fd, built.writer = Writer.file fd → built.core.enc.kind = EncoderKind.json) ∧
    (∀ id closer, built.writer = Writer.syncer id closer →
      built.core.enc.kind = EncoderKind.json) ∧
    (∀ env2 opts2 built2, NewLogger env2 opts2 = .ok built2 → built2.writer = built.writer →
      built2.core.enc.kind = built.core.enc.kind) ∧
    (∀ c : Call, (built.call env c).logger.core = built.core) := by
  obtain ⟨level, writer, -, hw, rfl⟩ := (NewLogger_ok_iff env opts built).mp h
  have hc := assemble_kind_console_iff (resolveOptions opts) level writer
  have hwr : (assemble (resolveOptions opts) level writer).writer = writer := rfl
  have hj : (assemble (resolveOptions opts) level writer).core.enc.kind = EncoderKind.json ↔
      ¬ (writer = Writer.Stdout ∨ writer = Writer.Stderr) := by
    rw [kind_json_iff_not_console, hc]
  refine ⟨hw, rfl, hc, hj, ?_, ?_, ?_, ?_⟩
  · intro fd hfd
    rw [hwr] at hfd
    rw [hj, hfd]
    simp
  · intro id closer hs
    rw [hwr] at hs
    rw [hj, hs]
    simp
  · intro env2 opts2 built2 h2 hsame
    obtain ⟨level2, writer2, -, -, rfl⟩ := (NewLogger_ok_iff env2 opts2 built2).mp h2
    have hw2 : writer2 = writer := hsame
    subst hw2
    have hc2 := assemble_kind_console_iff (resolveOptions opts2) level2 writer2
    by_cases hstd : writer2 = Writer.Stdout ∨ writer2 = Writer.Stderr
    · rw [hc2.mpr hstd, hc.mpr hstd]
    · rw [(kind_json_iff_not_console _).mpr (mt hc2.mp hstd),
        (kind_json_iff_not_console _).mpr (mt hc.mp hstd)]
  · intro c
    exact (call_keeps_configuration env _ c).1

/-- Witness of C11: the default logger on standard error has the console encoder, and a
logger on an injected sink with another level, context, depth and time layout has the JSON
encoder. -/
theorem NewLogger_encoder_by_writer_witness :
    NewLogger env0 [] = .ok defaultLogger ∧
    defaultLogger.core.enc.kind = EncoderKind.console ∧
    NewLogger env0 [WithLogLevel "debug", WithContext "svc", WithSkipFrames 4,
        WithTimeEncoder "2006-01-02", WithWriteSyncer injectedCloser] =
      .ok (assemble (resolveOptions [WithLogLevel "debug", WithContext "svc", WithSkipFrames 4,
        WithTimeEncoder "2006-01-02", WithWriteSyncer injectedCloser]) DebugLevel injectedCloser) ∧
    (assemble (resolveOptions [WithLogLevel "debug", WithContext "svc", WithSkipFrames 4,
        WithTimeEncoder "2006-01-02", WithWriteSyncer injectedCloser]) DebugLevel
          injectedCloser).core.enc.kind = EncoderKind.json :=
  ⟨rfl,
    (NewLogger_encoder_by_writer env0 [] defaultLogger rfl).2.2.1.mpr (Or.inr rfl),
    rfl,
    (NewLogger_encoder_by_writer env0 [WithLogLevel "debug", WithContext "svc", WithSkipFrames 4,
        WithTimeEncoder "2006-01-02", WithWriteSyncer injectedCloser]
      (assemble (resolveOptions [WithLogLevel "debug", WithContext "svc", WithSkipFrames 4,
        WithTimeEncoder "2006-01-02", WithWriteSyncer injectedCloser]) DebugLevel injectedCloser)
      rfl).2.2.2.2.2.1 7 true rfl⟩

theorem resolveOptions_eq (opts : List LoggerOption) :
    resolveOptions opts =
      if (appliedOptions opts).skipFrames ≤ 0 then { appliedOptions opts with skipFrames := 2 }
      else appliedOptions opts := rfl

theorem resolveOptions_skipFrames (opts : List LoggerOption) :
    (resolveOptions opts).skipFrames =
      if (appliedOptions opts).skipFrames ≤ 0 then 2 else (appliedOptions opts).skipFrames := by
  rw [resolveOptions_eq]
  split_ifs <;> rfl

theorem appliedOptions_append (opts : List LoggerOption) (opt : LoggerOption) :
    appliedOptions (opts ++ [opt]) = opt (appliedOptions opts) := by
  simp [appliedOptions, List.foldl_append]

/-- C12: `NewLogger` with no options returns a logger with threshold Warn, writer
`os.Stderr` and base depth 2.  For every option list, when the options leave `skipFrames` at
its zero value or at a negative value the base depth of the logger is 2, and when they leave it
at a positive value the base depth is that value; in particular when the last option sets the
depth to `n`. -/
theorem NewLogger_defaults (env : Env) :
    (∃ logger, NewLogger env [] = .ok logger ∧ logger.level = WarnLevel ∧
      logger.writer = Writer.Stderr ∧ logger.skipFrames = 2) ∧
    (appliedOptions []).skipFrames = 0 ∧
    (∀ opts built, NewLogger env opts = .ok built →
      ((appliedOptions opts).skipFrames ≤ 0 → built.skipFrames = 2) ∧
      (0 < (appliedOptions opts).skipFrames →
        built.skipFrames = (appliedOptions opts).skipFrames)) ∧
    (∀ opts n built, NewLogger env (opts ++ [WithSkipFrames n]) = .ok built →
      built.skipFrames = if n ≤ 0 then 2 else n) := by
  refine ⟨⟨defaultLogger, rfl, rfl, rfl, rfl⟩, rfl, ?_, ?_⟩
  · intro opts built hb
    obtain ⟨level, writer, -, -, rfl⟩ := (NewLogger_ok_iff env opts built).mp hb
    have hs : (assemble (resolveOptions opts) level writer).skipFrames =
        (resolveOptions opts).skipFrames := rfl
    rw [hs, resolveOptions_skipFrames]
    constructor
    · intro hle
      rw [if_pos hle]
    · intro hpos
      rw [if_neg (not_le.mpr hpos)]
  · intro opts n built hb
    obtain ⟨level, writer, -, -, rfl⟩ := (NewLogger_ok_iff env _ built).mp hb
    have hs : (assemble (resolveOptions (opts ++ [WithSkipFrames n])) level writer).skipFrames =
        (resolveOptions (opts ++ [WithSkipFrames n])).skipFrames := rfl
    rw [hs, resolveOptions_skipFrames, appliedOptions_append]
    rfl

/-- Witness of C12: depth options 0, -3 and 7 after other options. -/
theorem NewLogger_defaults_witness :
    NewLogger env0 [WithContext "svc", WithSkipFrames (-3)] =
      .ok (assemble (resolveOptions [WithContext "svc", WithSkipFrames (-3)]) WarnLevel
        Writer.Stderr) ∧
    (assemble (resolveOptions [WithContext "svc", WithSkipFrames (-3)]) WarnLevel
      Writer.Stderr).skipFrames = 2 ∧
    NewLogger env0 [WithContext "svc", WithSkipFrames 7] =
      .ok (assemble (resolveOptions [WithContext "svc", WithSkipFrames 7]) WarnLevel
        Writer.Stderr) ∧
    (assemble (resolveOptions [WithContext "svc", WithSkipFrames 7]) WarnLevel
      Writer.Stderr).skipFrames = 7 :=
  ⟨rfl,
    ((NewLogger_defaults env0).2.2.1 [WithContext "svc", WithSkipFrames (-3)]
      (assemble (resolveOptions [WithContext "svc", WithSkipFrames (-3)]) WarnLevel
        Writer.Stderr) rfl).1 (by decide),
    rfl,
    ((NewLogger_defaults env0).2.2.1 [WithContext "svc", WithSkipFrames 7]
      (assemble (resolveOptions [WithContext "svc", WithSkipFrames 7]) WarnLevel
        Writer.Stderr) rfl).2 (by decide)⟩

/-! ## The zap handle -/

theorem zap_log_of_le (env : Env) (log : Zap.Logger) (lvl : Level) (msg : String)
    (fields : List Field) (h : log.core.enab ≤ lvl) :
    log.log env lvl msg fields =
      [{ Level := lvl, Time := env.Now, Message := msg, LoggerName := log.name,
         fields := fields }] := by
  simp [Zap.Logger.log, Core.Enabled, h]

theorem zap_log_of_lt (env : Env) (log : Zap.Logger) (lvl : Level) (msg : String)
    (fields : List Field) (h : lvl < log.core.enab) :
    log.log env lvl msg fields = [] := by
  simp [Zap.Logger.log, Core.Enabled, not_le.mpr h]

theorem NewLogger_coreMatches (env : Env) (opts : List LoggerOption) (built : Logger)
    (h : NewLogger env opts = .ok built) : built.coreMatches := by
  obtain ⟨level, writer, -, -, rfl⟩ := (NewLogger_ok_iff env opts built).mp h
  exact ⟨rfl, rfl⟩

/-- C13: the handle `ZapLogger` returns is built on the logger's own core, so it has the
core's threshold, encoder and sink, and its caller skip is the logger's `skipFrames` (added to
the initial 0).  For a logger whose core is the one `NewLogger` paired with it, as for every
logger `NewLogger` returns and after any call form, a record logged through the handle at a
level is handed to that core, and so written to the logger's sink, if and only if the level is
at or above the logger's threshold, which is exactly when the logger's own call form of that
level writes. -/
theorem ZapLogger_shares_core (env : Env) (logger : Logger) (hcore : logger.coreMatches) :
    logger.ZapLogger.core = logger.core ∧
    logger.ZapLogger.core.enab = logger.level ∧
    logger.ZapLogger.core.out = logger.writer ∧
    logger.ZapLogger.callerSkip = addInt 0 logger.skipFrames ∧
    (-2 ^ 63 ≤ logger.skipFrames → logger.skipFrames < 2 ^ 63 →
      logger.ZapLogger.callerSkip = logger.skipFrames) ∧
    (∀ lvl msg fields, logger.ZapLogger.log env lvl msg fields ≠ [] ↔ logger.level ≤ lvl) ∧
    (∀ lvl msg fields, logger.level ≤ lvl →
      logger.ZapLogger.log env lvl msg fields = [⟨lvl, env.Now, msg, "", fields⟩]) ∧
    (∀ c : Call, coreWrites (logger.call env c).trace ≠ [] ↔
      logger.ZapLogger.log env c.severity.level (c.message env) c.fields ≠ []) ∧
    (∀ c : Call, (logger.call env c).logger.coreMatches) ∧
    (∀ opts built, NewLogger env opts = .ok built → built.coreMatches) := by
  have hz : logger.ZapLogger.core = logger.core := rfl
  have hen : logger.ZapLogger.core.enab = logger.level := hcore.1
  have hiff : ∀ lvl msg fields,
      logger.ZapLogger.log env lvl msg fields ≠ [] ↔ logger.level ≤ lvl := by
    intro lvl msg fields
    by_cases h : logger.level ≤ lvl
    · rw [zap_log_of_le env _ lvl msg fields (hen ▸ h)]
      simp [h]
    · rw [zap_log_of_lt env _ lvl msg fields (hen ▸ not_le.mp h)]
      simp [h]
  refine ⟨hz, hen, hcore.2, rfl, ?_, hiff, ?_, ?_, ?_, NewLogger_coreMatches env⟩
  · intro hlo hhi
    have h0 : logger.ZapLogger.callerSkip = wrapInt (0 + logger.skipFrames) := rfl
    rw [h0, zero_add]
    exact wrapInt_of_range _ hlo hhi
  · intro lvl msg fields h
    exact zap_log_of_le env _ lvl msg fields (hen ▸ h)
  · intro c
    rw [hiff]
    by_cases h : logger.level ≤ c.severity.level
    · rw [coreWrites_call_of_le env logger c h]
      simp [h]
    · rw [call_of_lt env logger c (not_le.mp h)]
      simp [coreWrites, h]
  · intro c
    have hk := call_keeps_configuration env logger c
    unfold Logger.coreMatches
    rw [hk.1, hk.2.1, hk.2.2.1]
    exact hcore

/-- Witness of C13: the handle of a logger with threshold Error drops a Warn record and
hands its core an Error record, as in the test of the handle. -/
theorem ZapLogger_shares_core_witness :
    errorLogger.coreMatches ∧
    errorLogger.ZapLogger.callerSkip = 2 ∧
    errorLogger.ZapLogger.log env0 WarnLevel "this message should be dropped" [] = [] ∧
    errorLogger.ZapLogger.log env0 ErrorLevel "this message should be seen" [] =
      [⟨ErrorLevel, 0, "this message should be seen", "", []⟩] :=
  have h := ZapLogger_shares_core env0 errorLogger ⟨rfl, rfl⟩
  ⟨⟨rfl, rfl⟩, h.2.2.2.2.1 (by decide) (by decide),
    by
      have hw := (h.2.2.2.2.2.1 WarnLevel "this message should be dropped" []).not
      simp only [not_not] at hw
      exact hw.mpr (by decide),
    h.2.2.2.2.2.2.1 ErrorLevel "this message should be seen" [] (by decide)⟩

/-! ## Suppressed calls -/

/-- C15: a call form invoked at a level below the threshold leaves the logger as it was, with
the same level, context, `skipFrames` and `skipFramesOnce`, and has no effect.  So an increment
set by `SkipFramesOnce` before a suppressed call is still pending after it: together with an
increment added after the suppressed call it is part of the caller depth of the next call that
passes the threshold, which then resets it. -/
theorem suppressed_call_keeps_state (env : Env) (logger : Logger) (c : Call)
    (h : c.severity.level < logger.level) :
    (logger.call env c).logger = logger ∧
    (logger.call env c).trace = [] ∧
    (logger.call env c).logger.level = logger.level ∧
    (logger.call env c).logger.context = logger.context ∧
    (logger.call env c).logger.skipFrames = logger.skipFrames ∧
    (logger.call env c).logger.skipFramesOnce = logger.skipFramesOnce ∧
    (∀ n : Int, ((logger.SkipFramesOnce n).call env c).logger.skipFramesOnce =
      addInt logger.skipFramesOnce n) ∧
    (∀ (n m : Int) (c2 : Call), logger.level ≤ c2.severity.level →
      ∃ e fields,
        coreWrites ((((logger.SkipFramesOnce n).call env c).logger.SkipFramesOnce m).call env
          c2).trace = [(e, fields)] ∧
        e.Caller = addInt logger.skipFrames (addInt (addInt logger.skipFramesOnce n) m) ∧
        ((((logger.SkipFramesOnce n).call env c).logger.SkipFramesOnce m).call env
          c2).logger.skipFramesOnce = 0) := by
  have hsame : logger.call env c = ⟨logger, []⟩ := call_of_lt env logger c h
  have hn : ∀ n : Int, (logger.SkipFramesOnce n).call env c = ⟨logger.SkipFramesOnce n, []⟩ :=
    fun n => call_of_lt env (logger.SkipFramesOnce n) c h
  refine ⟨?_, ?_, ?_, ?_, ?_, ?_, ?_, ?_⟩
  · rw [hsame]
  · rw [hsame]
  · rw [hsame]
  · rw [hsame]
  · rw [hsame]
  · rw [hsame]
  · intro n
    rw [hn n]
    rfl
  · intro n m c2 h2
    rw [hn n]
    have h3 : ((logger.SkipFramesOnce n).SkipFramesOnce m).level ≤ c2.severity.level := h2
    refine ⟨_, _, coreWrites_call_of_le env _ c2 h3, rfl, ?_⟩
    rw [call_of_le env _ c2 h3]

/-- Witness of C15: on a logger with threshold Error, base depth 2 and a pending increment of
3, a Debug call changes nothing; after one more increment of 1 an Error call is resolved at
depth 6. -/
theorem suppressed_call_keeps_state_witness :
    (Call.concat Severity.Debug [Value.ofString "dropped"]).severity.level <
      pendingLogger.level ∧
    (pendingLogger.call env0 (Call.concat Severity.Debug [Value.ofString "dropped"])).logger =
      pendingLogger ∧
    (pendingLogger.call env0
      (Call.concat Severity.Debug [Value.ofString "dropped"])).logger.skipFramesOnce = 3 ∧
    ∃ e fields,
      coreWrites ((((pendingLogger.SkipFramesOnce 0).call env0
        (Call.concat Severity.Debug [Value.ofString "dropped"])).logger.SkipFramesOnce 1).call
          env0 (Call.keyed Severity.Error "seen" [])).trace = [(e, fields)] ∧
      e.Caller = 6 :=
  have h := suppressed_call_keeps_state env0 pendingLogger
    (Call.concat Severity.Debug [Value.ofString "dropped"]) (by decide)
  ⟨by decide, h.1, h.2.2.2.2.2.1,
    (h.2.2.2.2.2.2.2 0 1 (Call.keyed Severity.Error "seen" []) (by decide)).elim
      fun e he => he.elim fun fields hf => ⟨e, fields, hf.1, hf.2.1⟩⟩

end Log

namespace Eng

/-! ## Route registration -/

theorem register_routers (lib : Lib) (rg : RouterGroupWrapper) (e : Engine) (M : Method)
    (r : String) (t : ResourceType) (handlers : List HandlerFunc) :
    (rg.register lib e M r t handlers).engine.Routers =
      mapSet e.Routers (FormatRoute M.name (lib.Join rg.basePath r)) t := by
  cases M <;> rfl

theorem methodName_eq (M : Method) :
    M.name = match M with
      | .GET => "GET"
      | .POST => "POST"
      | .PATCH => "PATCH"
      | .PUT => "PUT"
      | .DELETE => "DELETE" := by
  cases M <;> rfl

/-- C14: for a route group wrapper with base path `b`, made by `Engine.Group` or nested
through `Group`, and each of `GET`, `POST`, `PATCH`, `PUT` and `DELETE`: after the call with
relative path `r` and resource type `t`, whether the call into gin returned or panicked, the
map `Routers` of the engine holds `t` under the key `FormatRoute(M, path.Join(b, r))`, which is
the method name, one space and the joined path, and holds under every other key what it held
before the call. -/
theorem register_sets_route (lib : Lib) (rg : RouterGroupWrapper) (e : Engine) (M : Method)
    (r : String) (t : ResourceType) (handlers : List HandlerFunc) :
    (rg.register lib e M r t handlers).engine.Routers
      (FormatRoute M.name (lib.Join rg.basePath r)) = some t ∧
    FormatRoute M.name (lib.Join rg.basePath r) = M.name ++ " " ++ lib.Join rg.basePath r ∧
    (∀ key, key ≠ FormatRoute M.name (lib.Join rg.basePath r) →
      (rg.register lib e M r t handlers).engine.Routers key = e.Routers key) ∧
    (∀ parent : RouterGroupWrapper, ∀ sub : String,
      ((parent.Group lib sub).register lib e M r t handlers).engine.Routers
        (FormatRoute M.name (lib.Join (parent.Group lib sub).basePath r)) = some t) ∧
    (∀ sub : String,
      ((Engine.Group lib sub).register lib e M r t handlers).engine.Routers
        (FormatRoute M.name (lib.Join (Engine.Group lib sub).basePath r)) = some t) := by
  refine ⟨?_, rfl, ?_, ?_, ?_⟩
  · rw [register_routers]
    simp [mapSet]
  · intro key hkey
    rw [register_routers]
    simp [mapSet, hkey]
  · intro parent sub
    rw [register_routers]
    simp [mapSet]
  · intro sub
    rw [register_routers]
    simp [mapSet]

/-- Witness of C14: the registrations of the test `TestNew`, the last of them on a nested
group; a key that was set before is kept, and a key never set is absent. -/
theorem register_sets_route_witness :
    ((((Engine.Group lib0 "/api/v1").Group lib0 "/group").register lib0
        (((Engine.Group lib0 "/api/v1").register lib0 (New lib0) Method.POST "/books"
          bookResourceType [1]).engine)
        Method.GET "/reviews/:review_id" reviewResourceType [2]).engine.Routers
      "GET /api/v1/group/reviews/:review_id" = some reviewResourceType) ∧
    "POST /api/v1/books" ≠ FormatRoute Method.GET.name
      (lib0.Join ((Engine.Group lib0 "/api/v1").Group lib0 "/group").basePath
        "/reviews/:review_id") ∧
    ((((Engine.Group lib0 "/api/v1").Group lib0 "/group").register lib0
        (((Engine.Group lib0 "/api/v1").register lib0 (New lib0) Method.POST "/books"
          bookResourceType [1]).engine)
        Method.GET "/reviews/:review_id" reviewResourceType [2]).engine.Routers
      "POST /api/v1/books" = some bookResourceType) :=
  have h := register_sets_route lib0 ((Engine.Group lib0 "/api/v1").Group lib0 "/group")
    (((Engine.Group lib0 "/api/v1").register lib0 (New lib0) Method.POST "/books"
      bookResourceType [1]).engine)
    Method.GET "/reviews/:review_id" reviewResourceType [2]
  ⟨h.1, by decide, (h.2.2.1 "POST /api/v1/books" (by decide)).trans (by decide)⟩

/-- The map of the test `TestNew` after its six registrations, key by key, and an absent
key; the same keys are set when gin panics at every registration. -/
theorem TestNew_routers :
    let g := Engine.Group lib0 "/api/v1"
    let e1 := (g.GET lib0 (New lib0) "/users" userResourceType [1]).engine
    let e2 := (g.POST lib0 e1 "/books" bookResourceType [1]).engine
    let e3 := (g.PATCH lib0 e2 "/books/:book_id" bookResourceType [1]).engine
    let e4 := (g.PUT lib0 e3 "/users/:user_id" userResourceType [1]).engine
    let e5 := (g.DELETE lib0 e4 "/books/:book_id" bookResourceType [1]).engine
    let e6 := ((g.Group lib0 "/group").GET lib0 e5 "/reviews/:review_id"
      reviewResourceType [1]).engine
    e6.Routers "GET /api/v1/users" = some userResourceType ∧
    e6.Routers "POST /api/v1/books" = some bookResourceType ∧
    e6.Routers "PATCH /api/v1/books/:book_id" = some bookResourceType ∧
    e6.Routers "PUT /api/v1/users/:user_id" = some userResourceType ∧
    e6.Routers "DELETE /api/v1/books/:book_id" = some bookResourceType ∧
    e6.Routers "GET /api/v1/group/reviews/:review_id" = some reviewResourceType ∧
    e6.Routers "GET /api/v1/books" = none ∧
    e6.gin = 6 ∧
    (g.GET libPanic (New libPanic) "/users" userResourceType [1]).engine.Routers
      "GET /api/v1/users" = some userResourceType ∧
    (g.GET libPanic (New libPanic) "/users" userResourceType [1]).panicked =
      some "handlers are already registered" := by
  decide

end Eng
